import Mathlib

/-!
Verification development for the claims-askes repository.

Two components are embedded shallowly:

* the premium pricing engine
  (src/backend/services/claims-engine/src/pricing/pricing_engine.py), and
* the claims validation engine
  (src/init_desg/claims_validation_engine_v1.py).

Conventions of the embedding:

* Python Decimal values are modelled exactly as rationals (the spec mandates
  full-precision intermediates with a single half-up presentation rounding);
* dates are modelled as integers (days), so date subtraction and timedelta
  addition become integer arithmetic;
* Python truthiness on optional numeric columns (where None and 0 are both
  falsy) is modelled by explicit helper predicates;
* ORM rows are records, the database session is a record of row lists, and
  mutation is explicit state passing;
* functions that raise become Except-valued functions.
-/

namespace ClaimsAskes

/-- Python truthiness for an optional integer column: None and 0 are falsy. -/
def truthyInt : Option ℤ → Bool
  | none => false
  | some n => decide (n ≠ 0)

/-- Python truthiness for an optional Decimal column: None and 0 are falsy. -/
def truthyQ : Option ℚ → Bool
  | none => false
  | some q => decide (q ≠ 0)

/-- Replace the first element satisfying p (models an ORM update of the row
returned by a filtered .first() query). -/
def updateFirst {α : Type} (p : α → Bool) (f : α → α) : List α → List α
  | [] => []
  | x :: xs => if p x then f x :: xs else x :: updateFirst p f xs

/-- Python dict .get(key, default) on an association list. -/
def dictGet (l : List (String × ℚ)) (k : String) (d : ℚ) : ℚ :=
  match l.find? (fun p => p.1 == k) with
  | some p => p.2
  | none => d

/-- Decimal.quantize(Decimal(0.01), rounding=ROUND_HALF_UP): round to two
fractional digits, ties away from zero. -/
def roundHalfUp2 (x : ℚ) : ℚ :=
  if 0 ≤ x then (⌊x * 100 + 1/2⌋ : ℚ) / 100
  else -((⌊(-x) * 100 + 1/2⌋ : ℚ) / 100)

namespace Pricing

/-- Gender enum from pricing/models.py. -/
inductive Gender
  | MALE
  | FEMALE
  | CHILD
deriving DecidableEq

/-- PolicyStatus enum from pricing/models.py. -/
inductive PolicyStatus
  | DRAFT
  | QUOTED
  | APPROVED
  | ACTIVE
  | EXPIRED
  | CANCELLED
deriving DecidableEq

/-- BenefitCategory enum from pricing/models.py. -/
inductive BenefitCategory
  | INPATIENT
  | OUTPATIENT
  | DENTAL
  | MATERNITY
  | OPTICAL
  | ASO
deriving DecidableEq

/-- ProductTemplate row (the fields used by the pricing engine). -/
structure ProductTemplate where
  template_id : ℕ
  base_premium_adult_male : Option ℚ
  base_premium_adult_female : Option ℚ
  base_premium_child : Option ℚ
deriving DecidableEq

/-- AgeBandMultiplier row. The gender column stores MALE, FEMALE or CHILD. -/
structure AgeBandMultiplier where
  template_id : ℕ
  age_from : ℕ
  age_to : ℕ
  gender : Gender
  multiplier : ℚ
deriving DecidableEq

/-- BenefitSelection row; template is the resolved ORM relationship. -/
structure BenefitSelection where
  benefit_category : BenefitCategory
  template : Option ProductTemplate
  is_selected : Bool
  category_factor : ℚ
deriving DecidableEq

/-- TCFactorConfig row (the fields used by update_tc_factor). -/
structure TCFactorConfig where
  factor_id : ℕ
  factor_code : String
  is_active : Bool
deriving DecidableEq

/-- TCFactorOption row. min/max participants are nullable integer columns. -/
structure TCFactorOption where
  option_id : ℕ
  factor_id : ℕ
  option_value : String
  multiplier : ℚ
  min_participants : Option ℤ
  max_participants : Option ℤ
  is_default : Bool
deriving DecidableEq

/-- PolicyTCSelection row; factor and option are the resolved relationships. -/
structure PolicyTCSelection where
  factor_id : ℕ
  option_id : Option ℕ
  applied_multiplier : ℚ
  factor : Option TCFactorConfig
  option : Option TCFactorOption
deriving DecidableEq

/-- PolicyMember row. The status column is a plain string compared against
the literal ACTIVE; age is the derived age attribute. -/
structure PolicyMember where
  member_number : ℕ
  full_name : String
  gender : Gender
  age : ℕ
  status : String
  base_premium : ℚ
deriving DecidableEq

/-- ApprovalWorkflow row. -/
structure ApprovalWorkflow where
  step_name : String
  step_order : ℕ
  approval_status : String
  min_premium_threshold : ℚ
deriving DecidableEq

/-- PolicyConfig row together with its owned child rows. -/
structure PolicyConfig where
  participant_count : ℕ
  status : PolicyStatus
  members : List PolicyMember
  benefit_selections : List BenefitSelection
  tc_selections : List PolicyTCSelection
  approval_workflows : List ApprovalWorkflow
  total_base_premium : Option ℚ
  total_factor_multiplier : Option ℚ
  total_adjusted_premium : Option ℚ
deriving DecidableEq

/-- The read-mostly catalog tables consulted by the engine. -/
structure PricingDB where
  tc_factors : List TCFactorConfig
  tc_options : List TCFactorOption
  age_bands : List AgeBandMultiplier
deriving DecidableEq

/-- Members of a config whose status column equals ACTIVE. -/
def activeMembers (cfg : PolicyConfig) : List PolicyMember :=
  cfg.members.filter (fun m => m.status == "ACTIVE")

/-- PricingEngine._calculate_category_factor: small-group loading by stored
participant_count, then the maternity demographic loading.  The maternity
count query filters on gender FEMALE and age 18..45 only - it does not
filter on member status. -/
def calcCategoryFactor (cfg : PolicyConfig) (category : BenefitCategory) : ℚ :=
  let base : ℚ :=
    if cfg.participant_count < 15 then 1 * 1.5
    else if cfg.participant_count < 25 then 1 * 1.25
    else if cfg.participant_count < 50 then 1 * 1.1
    else 1
  if category = BenefitCategory.MATERNITY then
    let female_count :=
      (cfg.members.filter (fun m =>
        decide (m.gender = Gender.FEMALE ∧ 18 ≤ m.age ∧ m.age ≤ 45))).length
    if (female_count : ℚ) > (cfg.participant_count : ℚ) * 0.4 then base * 1.15
    else base
  else base

/-- PricingEngine.toggle_benefit_category: fetch the selection row for the
category (first match), set is_selected, and set category_factor to the
computed factor when selecting or reset it to 1.000 when deselecting.
When no row matches, nothing changes and None is returned. -/
def toggle_benefit_category (cfg : PolicyConfig) (category : BenefitCategory)
    (is_selected : Bool) : Option BenefitSelection × PolicyConfig :=
  match cfg.benefit_selections.find? (fun s => decide (s.benefit_category = category)) with
  | none => (none, cfg)
  | some s =>
    let s' := { s with
      is_selected := is_selected
      category_factor := if is_selected then calcCategoryFactor cfg category else 1 }
    (some s',
      { cfg with benefit_selections :=
          (updateFirst (fun t => decide (t.benefit_category = category)) (fun _ => s')
            cfg.benefit_selections) })

/-- PricingEngine._get_age_band_multiplier: first band matching template,
inclusive age bounds and gender (CHILD when age below 18); default 1.000. -/
def ageBandLookup (db : PricingDB) (template_id : ℕ) (age : ℕ) (gender : Gender) : ℚ :=
  match db.age_bands.find? (fun b =>
      decide (b.template_id = template_id ∧ b.age_from ≤ age ∧ age ≤ b.age_to ∧
        b.gender = (if 18 ≤ age then gender else Gender.CHILD))) with
  | some b => b.multiplier
  | none => 1

/-- PricingEngine._calculate_member_premium: sum over selected benefit
selections that carry a template of base rate (child / adult male / adult
female, None treated as 0) times the age-band multiplier. -/
def memberPremium (db : PricingDB) (cfg : PolicyConfig) (m : PolicyMember) : ℚ :=
  cfg.benefit_selections.foldl (fun acc s =>
    match s.template with
    | none => acc
    | some t =>
      if s.is_selected then
        let base : ℚ :=
          if m.age < 18 then t.base_premium_child.getD 0
          else if m.gender = Gender.MALE then t.base_premium_adult_male.getD 0
          else t.base_premium_adult_female.getD 0
        acc + base * ageBandLookup db t.template_id m.age m.gender
      else acc) 0

/-- PricingEngine._calculate_factor_breakdown, total_multiplier part:
product of category factors of selected benefit selections times applied
multipliers of TC selections whose factor and option references resolve. -/
def factorTotalMultiplier (cfg : PolicyConfig) : ℚ :=
  let afterBenefits := cfg.benefit_selections.foldl
    (fun acc s => if s.is_selected then acc * s.category_factor else acc) 1
  cfg.tc_selections.foldl
    (fun acc tc => if tc.factor.isSome && tc.option.isSome then acc * tc.applied_multiplier
      else acc) afterBenefits

/-- PricingEngine._calculate_admin_fee: the larger of the 100000 base fee and
5 percent of the adjusted premium. -/
def calcAdminFee (premium : ℚ) : ℚ :=
  max 100000 (premium * 0.05)

/-- PricingEngine._calculate_tpa_fee: the larger of 10000 per participant and
the 100000 minimum fee. -/
def calcTpaFee (cfg : PolicyConfig) : ℚ :=
  max ((10000 : ℚ) * cfg.participant_count) 100000

/-- The numeric content of the result dict built by calculate_premium. -/
structure PremiumResult where
  participant_count : ℕ
  base_premium : ℚ
  total_multiplier : ℚ
  adjusted_premium : ℚ
  admin_fee : ℚ
  tpa_fee : ℚ
  total_premium : ℚ
  monthly_premium : ℚ
  per_member_average : ℚ
deriving DecidableEq

/-- PricingEngine.calculate_premium: sum member premiums over ACTIVE members,
multiply by the factor total, add admin and TPA fees, round half-up to two
decimals, and update the cached totals (and the stored member base
premiums) on the config. -/
def calculate_premium (db : PricingDB) (cfg : PolicyConfig) :
    PremiumResult × PolicyConfig :=
  let base_premium_total :=
    (activeMembers cfg).foldl (fun acc m => acc + memberPremium db cfg m) 0
  let total_multiplier := factorTotalMultiplier cfg
  let adjusted_premium := base_premium_total * total_multiplier
  let admin_fee := calcAdminFee adjusted_premium
  let tpa_fee := calcTpaFee cfg
  let total_premium := roundHalfUp2 (adjusted_premium + admin_fee + tpa_fee)
  let result : PremiumResult := {
    participant_count := cfg.participant_count
    base_premium := base_premium_total
    total_multiplier := total_multiplier
    adjusted_premium := adjusted_premium
    admin_fee := admin_fee
    tpa_fee := tpa_fee
    total_premium := total_premium
    monthly_premium := total_premium / 12
    per_member_average :=
      if 0 < cfg.participant_count then total_premium / cfg.participant_count else 0 }
  let cfg' := { cfg with
    members := cfg.members.map (fun m =>
      if m.status == "ACTIVE" then { m with base_premium := memberPremium db cfg m } else m)
    total_base_premium := some base_premium_total
    total_factor_multiplier := some total_multiplier
    total_adjusted_premium := some adjusted_premium }
  (result, cfg')

/-- PricingEngine._validate_configuration: the three checked preconditions in
source order, each failing with its ValueError message. -/
def validateConfiguration (cfg : PolicyConfig) : Except String Unit :=
  if cfg.participant_count < 5 then .error "Minimum 5 participants required"
  else if ! cfg.benefit_selections.any (fun s => s.is_selected) then
    .error "At least one benefit must be selected"
  else if (activeMembers cfg).length = 0 then .error "No members enrolled"
  else .ok ()

/-- PricingEngine._create_approval_workflow: a PENDING step for each threshold
that the (truthy) cached adjusted premium meets or exceeds. -/
def createApprovalSteps (cfg : PolicyConfig) : List ApprovalWorkflow :=
  ([("UNDERWRITING", 1, (1000000 : ℚ)), ("ACTUARIAL", 2, 5000000),
    ("MANAGEMENT", 3, 10000000)]).filterMap (fun st =>
    if truthyQ cfg.total_adjusted_premium &&
        decide (cfg.total_adjusted_premium.getD 0 ≥ st.2.2) then
      some ⟨st.1, st.2.1, "PENDING", st.2.2⟩
    else none)

/-- PricingEngine.submit_for_approval: reject non-DRAFT configs, run
_validate_configuration, recompute the premium, set status QUOTED and
create the approval workflow steps. -/
def submit_for_approval (db : PricingDB) (cfg : PolicyConfig) :
    Except String PolicyConfig :=
  if cfg.status ≠ PolicyStatus.DRAFT then
    .error "Only draft configurations can be submitted for approval"
  else
    match validateConfiguration cfg with
    | .error e => .error e
    | .ok _ =>
      let cfg1 := (calculate_premium db cfg).2
      let cfg2 := { cfg1 with status := PolicyStatus.QUOTED }
      .ok { cfg2 with
        approval_workflows := cfg2.approval_workflows ++ createApprovalSteps cfg2 }

/-- PricingEngine.update_tc_factor: resolve factor and option (ValueError on
a miss), enforce the participant bounds under Python truthiness, then set
option_id and applied_multiplier on the (found or new) selection row. -/
def update_tc_factor (db : PricingDB) (cfg : PolicyConfig)
    (factor_code option_value : String) :
    Except String (PolicyTCSelection × PolicyConfig) :=
  match db.tc_factors.find? (fun f => f.factor_code == factor_code) with
  | none => .error ("Invalid factor code: " ++ factor_code)
  | some factor =>
    match db.tc_options.find? (fun o =>
        o.factor_id == factor.factor_id && o.option_value == option_value) with
    | none => .error ("Invalid option value: " ++ option_value)
    | some option =>
      if truthyInt option.min_participants &&
          decide ((cfg.participant_count : ℤ) < option.min_participants.getD 0) then
        .error ("Minimum " ++ toString (option.min_participants.getD 0) ++
          " participants required")
      else if truthyInt option.max_participants &&
          decide ((cfg.participant_count : ℤ) > option.max_participants.getD 0) then
        .error ("Maximum " ++ toString (option.max_participants.getD 0) ++
          " participants allowed")
      else
        -- the applied_multiplier of a freshly created row is overwritten below
        let base := match cfg.tc_selections.find? (fun s => s.factor_id == factor.factor_id) with
          | some s => s
          | none => { factor_id := factor.factor_id, option_id := none,
                      applied_multiplier := 1, factor := some factor, option := none }
        let sel := { base with
          option_id := some option.option_id
          applied_multiplier := option.multiplier
          option := some option }
        let tcs := match cfg.tc_selections.find? (fun s => s.factor_id == factor.factor_id) with
          | some _ => updateFirst (fun s => s.factor_id == factor.factor_id) (fun _ => sel)
              cfg.tc_selections
          | none => cfg.tc_selections ++ [sel]
        .ok (sel, { cfg with tc_selections := tcs })

/-- The factors/update endpoint (pricing/api.py update_tc_factor): run the
engine update and then recalculate the premium. -/
def updateTCFactorEndpoint (db : PricingDB) (cfg : PolicyConfig)
    (factor_code option_value : String) :
    Except String (PolicyTCSelection × PolicyConfig × PremiumResult) :=
  match update_tc_factor db cfg factor_code option_value with
  | .error e => .error e
  | .ok (sel, cfg1) =>
    let rc := calculate_premium db cfg1
    .ok (sel, rc.2, rc.1)

end Pricing

namespace Validation

/-- Dates are modelled as integer day numbers; date subtraction gives the
day difference and timedelta(days=n) is integer addition. -/
abbrev Date := ℤ

/-- ValidationStatus enum. -/
inductive ValidationStatus
  | PASSED
  | FAILED
  | WARNING
  | PENDING
deriving DecidableEq

/-- BenefitCategory enum of the validation engine. -/
inductive BenefitCategory
  | INPATIENT
  | OUTPATIENT
  | DENTAL
  | OPTICAL
  | MATERNITY
  | EMERGENCY
  | PREVENTIVE
  | MENTAL_HEALTH
  | REHABILITATION
deriving DecidableEq

/-- CoverageType enum. -/
inductive CoverageType
  | NOT_COVERED
  | COVERED_STANDARD
  | COVERED_PER_CASE
  | COVERED_PER_YEAR
  | COVERED_PER_VISIT
  | COVERED_PER_DAY
  | COVERED_IN_SURGERY
  | COVERED_IN_HOSPITAL
  | COVERED_SEPARATE
  | COVERED_MEDICAL_IND
  | COVERED_TC
deriving DecidableEq

/-- ClaimChannel enum. -/
inductive ClaimChannel
  | CASHLESS
  | REIMBURSEMENT
deriving DecidableEq

/-- ValidationResult dataclass; default values as in the source. Dict
values in details are stringified. -/
structure ValidationResult where
  rule_code : String
  rule_name : String
  status : ValidationStatus
  message : String
  details : List (String × String) := []
  can_override : Bool := false
  required_authority_level : ℕ := 0
deriving DecidableEq

/-- BenefitConfiguration dataclass. -/
structure BenefitConfiguration where
  benefit_code : String
  benefit_name : String
  category : BenefitCategory
  coverage_type : CoverageType
  claim_settlement_pct : ℤ := 100
  coinsurance_pct : ℤ := 0
  limit_value : Option ℚ := none
  max_days_per_year : Option ℤ := none
  max_visits_per_year : Option ℤ := none
  max_cases_per_year : Option ℤ := none
  requires_preauth : Bool := false
  min_age_years : Option ℤ := none
  max_age_years : Option ℤ := none
  requires_medical_indication : Bool := false
  waiting_period_days : ℤ := 0
  pre_hospitalization_days : Option ℤ := none
  post_hospitalization_days : Option ℤ := none
  exclusions : List String := []
  prerequisites : List String := []
deriving DecidableEq

/-- An entry of ClaimContext.previous_claims (a dict accessed with .get). -/
structure PrevClaim where
  claim_id : Option String := none
  hash : Option String := none
  service_date : Option Date := none
deriving DecidableEq

/-- ClaimContext dataclass. accumulator_balances is a string-keyed dict of
Decimal balances. -/
structure ClaimContext where
  claim_id : String
  member_id : String
  member_age_years : ℤ
  plan_id : String
  benefit_code : String
  service_date : Date
  admission_date : Option Date := none
  discharge_date : Option Date := none
  provider_id : String := ""
  diagnosis_codes : List String := []
  procedure_codes : List String := []
  claimed_amount : ℚ := 0
  channel : ClaimChannel := ClaimChannel.CASHLESS
  has_preauth : Bool := false
  preauth_number : Option String := none
  is_emergency : Bool := false
  member_since_date : Option Date := none
  previous_claims : List PrevClaim := []
  accumulator_balances : List (String × ℚ) := []
deriving DecidableEq

/-- VAL001 _validate_age_eligibility. Both age bounds are checked under
Python truthiness (a bound of 0 is skipped). -/
def validate_age_eligibility (ctx : ClaimContext) (b : BenefitConfiguration) :
    Option ValidationResult :=
  if truthyInt b.min_age_years &&
      decide (ctx.member_age_years < b.min_age_years.getD 0) then
    some {
      rule_code := "", rule_name := "", status := .FAILED,
      message := "Member age " ++ toString ctx.member_age_years ++
        " is below minimum age " ++ toString (b.min_age_years.getD 0),
      details := [("member_age", toString ctx.member_age_years),
        ("min_age", toString (b.min_age_years.getD 0))] }
  else if truthyInt b.max_age_years &&
      decide (ctx.member_age_years > b.max_age_years.getD 0) then
    some {
      rule_code := "", rule_name := "", status := .FAILED,
      message := "Member age " ++ toString ctx.member_age_years ++
        " exceeds maximum age " ++ toString (b.max_age_years.getD 0),
      details := [("member_age", toString ctx.member_age_years),
        ("max_age", toString (b.max_age_years.getD 0))] }
  else none

/-- VAL002 _validate_waiting_period. -/
def validate_waiting_period (ctx : ClaimContext) (b : BenefitConfiguration) :
    Option ValidationResult :=
  if b.waiting_period_days > 0 then
    match ctx.member_since_date with
    | some since =>
      let days_as_member := ctx.service_date - since
      if days_as_member < b.waiting_period_days then
        some {
      rule_code := "", rule_name := "", status := .FAILED,
          message := "Waiting period not met. Required: " ++
            toString b.waiting_period_days ++ " days, Actual: " ++
            toString days_as_member ++ " days",
          details := [("waiting_period_days", toString b.waiting_period_days),
            ("days_as_member", toString days_as_member)] }
      else none
    | none => none
  else none

/-- VAL003 _validate_annual_limit. The rule fires only when limit_value is
truthy (set and nonzero) and claimed_amount strictly exceeds the remaining
allowance; the status is FAILED when nothing remains, WARNING otherwise,
in both cases overridable at authority level 2. -/
def validate_annual_limit (ctx : ClaimContext) (b : BenefitConfiguration) :
    Option ValidationResult :=
  match b.limit_value with
  | some lv =>
    if lv ≠ 0 then
      let used_amount := dictGet ctx.accumulator_balances (b.benefit_code ++ "_annual") 0
      let remaining := lv - used_amount
      if ctx.claimed_amount > remaining then
        some {
      rule_code := "", rule_name := "",
          status := if remaining ≤ 0 then .FAILED else .WARNING,
          message := "Annual limit " ++
            (if remaining ≤ 0 then "exceeded" else "will be exceeded") ++
            ". Limit: " ++ toString lv ++ ", Used: " ++ toString used_amount ++
            ", Claimed: " ++ toString ctx.claimed_amount,
          details := [("annual_limit", toString lv),
            ("used_amount", toString used_amount),
            ("remaining", toString remaining),
            ("claimed_amount", toString ctx.claimed_amount)],
          can_override := true, required_authority_level := 2 }
      else none
    else none
  | none => none

/-- VAL004 _validate_preauthorization. -/
def validate_preauthorization (ctx : ClaimContext) (b : BenefitConfiguration) :
    Option ValidationResult :=
  if b.requires_preauth && ! ctx.is_emergency then
    if ! ctx.has_preauth then
      some {
      rule_code := "", rule_name := "", status := .FAILED,
        message := "Pre-authorization required but not provided",
        details := [("requires_preauth", "True"), ("has_preauth", "False")],
        can_override := true, required_authority_level := 3 }
    else none
  else none

/-- VAL005 _validate_medical_indication, with the hardcoded circumcision
diagnosis whitelist of the source. -/
def validate_medical_indication (ctx : ClaimContext) (b : BenefitConfiguration) :
    Option ValidationResult :=
  if b.requires_medical_indication then
    if ctx.diagnosis_codes.isEmpty then
      some {
      rule_code := "", rule_name := "", status := .FAILED,
        message := "Medical indication required but no diagnosis provided",
        details := [("requires_medical_indication", "True")] }
    else if b.benefit_code.startsWith "CIRC" then
      let valid_diagnoses := ["N47.0", "N47.1", "Z41.2"]
      if ! ctx.diagnosis_codes.any (fun d => valid_diagnoses.contains d) then
        some {
      rule_code := "", rule_name := "", status := .FAILED,
          message := "Medical indication not met for circumcision",
          details := (ctx.diagnosis_codes.map (fun d => ("diagnosis_code", d))) ++
            (valid_diagnoses.map (fun d => ("required_diagnosis", d))) }
      else none
    else none
  else none

/-- VAL006 _validate_exclusions: first excluded diagnosis fails the claim. -/
def validate_exclusions (ctx : ClaimContext) (b : BenefitConfiguration) :
    Option ValidationResult :=
  match ctx.diagnosis_codes.find? (fun d => b.exclusions.contains d) with
  | some d =>
    some {
      rule_code := "", rule_name := "", status := .FAILED,
      message := "Diagnosis " ++ d ++ " is excluded from coverage",
      details := [("excluded_diagnosis", d)] }
  | none => none

/-- VAL007 _validate_channel: placeholder returning no result. -/
def validate_channel (_ : ClaimContext) (_ : BenefitConfiguration) :
    Option ValidationResult := none

/-- _generate_claim_hash: the sha256 hex digest of the formatted string is
modelled by the (injective) formatted string itself. -/
def generate_claim_hash (ctx : ClaimContext) : String :=
  ctx.member_id ++ "_" ++ ctx.benefit_code ++ "_" ++ toString ctx.service_date ++
    "_" ++ toString ctx.claimed_amount

/-- VAL008 _validate_duplicate: warn on the first previous claim carrying the
same fingerprint within 30 days either way. -/
def validate_duplicate (ctx : ClaimContext) (b : BenefitConfiguration) :
    Option ValidationResult :=
  let claim_hash := generate_claim_hash ctx
  ctx.previous_claims.findSome? (fun prev =>
    if prev.hash == some claim_hash then
      let days_diff := ctx.service_date - (prev.service_date.getD ctx.service_date)
      if |days_diff| < 30 then
        some {
      rule_code := "", rule_name := "", status := .WARNING,
          message := "Potential duplicate claim detected. Previous claim: " ++
            (prev.claim_id.getD ""),
          details := [("previous_claim_id", prev.claim_id.getD ""),
            ("days_difference", toString days_diff)],
          can_override := true, required_authority_level := 2 }
      else none
    else none)

/-- _check_prerequisite_met: placeholder returning True in the source. -/
def check_prerequisite_met (_ : ClaimContext) (_ : String) : Bool := true

/-- VAL009 _validate_prerequisites: first unmet prerequisite fails; with the
placeholder check every prerequisite is met. -/
def validate_prerequisites (ctx : ClaimContext) (b : BenefitConfiguration) :
    Option ValidationResult :=
  match b.prerequisites.find? (fun p => ! check_prerequisite_met ctx p) with
  | some p =>
    some {
      rule_code := "", rule_name := "", status := .FAILED,
      message := "Prerequisite benefit " ++ p ++ " not met",
      details := [("missing_prerequisite", p)] }
  | none => none

/-- VAL010 _validate_accumulators: placeholder returning no result. -/
def validate_accumulators (_ : ClaimContext) (_ : BenefitConfiguration) :
    Option ValidationResult := none

/-- VAL011 _validate_room_upgrade: placeholder returning no result. -/
def validate_room_upgrade (_ : ClaimContext) (_ : BenefitConfiguration) :
    Option ValidationResult := none

/-- VAL012 _validate_surgery_class: placeholder returning no result. -/
def validate_surgery_class (_ : ClaimContext) (_ : BenefitConfiguration) :
    Option ValidationResult := none

/-- VAL013 _validate_pre_post_hosp: service date must not precede the
pre-hospitalization window start nor follow the post-hospitalization window
end, each window checked only when its day count is truthy and the
corresponding admission or discharge date is present. -/
def validate_pre_post_hosp (ctx : ClaimContext) (b : BenefitConfiguration) :
    Option ValidationResult :=
  let preRes : Option ValidationResult :=
    if truthyInt b.pre_hospitalization_days then
      match ctx.admission_date with
      | some ad =>
        let pre_hosp_start := ad - b.pre_hospitalization_days.getD 0
        if ctx.service_date < pre_hosp_start then
          some {
      rule_code := "", rule_name := "", status := .FAILED,
            message := "Service date outside pre-hospitalization window (" ++
              toString (b.pre_hospitalization_days.getD 0) ++ " days)",
            details := [("service_date", toString ctx.service_date),
              ("admission_date", toString ad),
              ("window_start", toString pre_hosp_start)] }
        else none
      | none => none
    else none
  match preRes with
  | some r => some r
  | none =>
    if truthyInt b.post_hospitalization_days then
      match ctx.discharge_date with
      | some dd =>
        let post_hosp_end := dd + b.post_hospitalization_days.getD 0
        if ctx.service_date > post_hosp_end then
          some {
      rule_code := "", rule_name := "", status := .FAILED,
            message := "Service date outside post-hospitalization window (" ++
              toString (b.post_hospitalization_days.getD 0) ++ " days)",
            details := [("service_date", toString ctx.service_date),
              ("discharge_date", toString dd),
              ("window_end", toString post_hosp_end)] }
        else none
      | none => none
    else none

/-- VAL014 _validate_icu_limits: placeholder returning no result. -/
def validate_icu_limits (_ : ClaimContext) (_ : BenefitConfiguration) :
    Option ValidationResult := none

/-- VAL015 _validate_recovery_period: placeholder returning no result. -/
def validate_recovery_period (_ : ClaimContext) (_ : BenefitConfiguration) :
    Option ValidationResult := none

/-- VAL016 _validate_visit_limits. -/
def validate_visit_limits (ctx : ClaimContext) (b : BenefitConfiguration) :
    Option ValidationResult :=
  if truthyInt b.max_visits_per_year then
    let used_visits := dictGet ctx.accumulator_balances (b.benefit_code ++ "_visits") 0
    if used_visits ≥ ((b.max_visits_per_year.getD 0 : ℤ) : ℚ) then
      some {
      rule_code := "", rule_name := "", status := .FAILED,
        message := "Annual visit limit exceeded. Max: " ++
          toString (b.max_visits_per_year.getD 0) ++ ", Used: " ++
          toString used_visits,
        details := [("max_visits", toString (b.max_visits_per_year.getD 0)),
          ("used_visits", toString used_visits)] }
    else none
  else none

/-- VAL017 _validate_package_benefits: placeholder returning no result. -/
def validate_package_benefits (_ : ClaimContext) (_ : BenefitConfiguration) :
    Option ValidationResult := none

/-- VAL018 _validate_referral: placeholder returning no result. -/
def validate_referral (_ : ClaimContext) (_ : BenefitConfiguration) :
    Option ValidationResult := none

/-- VAL019 _validate_maternity: placeholder returning no result. -/
def validate_maternity (_ : ClaimContext) (_ : BenefitConfiguration) :
    Option ValidationResult := none

/-- VAL020 _validate_dental_class: placeholder returning no result. -/
def validate_dental_class (_ : ClaimContext) (_ : BenefitConfiguration) :
    Option ValidationResult := none

/-- VAL021 _validate_optical_cycle: placeholder returning no result. -/
def validate_optical_cycle (_ : ClaimContext) (_ : BenefitConfiguration) :
    Option ValidationResult := none

/-- VAL022 _validate_mental_health: placeholder returning no result. -/
def validate_mental_health (_ : ClaimContext) (_ : BenefitConfiguration) :
    Option ValidationResult := none

/-- VAL023 _validate_aso_funds: placeholder returning no result. -/
def validate_aso_funds (_ : ClaimContext) (_ : BenefitConfiguration) :
    Option ValidationResult := none

/-- VAL024 _validate_buffer_funds: placeholder returning no result. -/
def validate_buffer_funds (_ : ClaimContext) (_ : BenefitConfiguration) :
    Option ValidationResult := none

/-- VAL025 _validate_coinsurance: a PASSED result carrying both liabilities
whenever the coinsurance percentage is positive. -/
def validate_coinsurance (ctx : ClaimContext) (b : BenefitConfiguration) :
    Option ValidationResult :=
  if b.coinsurance_pct > 0 then
    let member_liability := ctx.claimed_amount * (b.coinsurance_pct : ℚ) / 100
    let payer_liability := ctx.claimed_amount - member_liability
    some {
      rule_code := "", rule_name := "", status := .PASSED,
      message := "Coinsurance calculated: Member pays " ++
        toString b.coinsurance_pct ++ "%",
      details := [("coinsurance_pct", toString b.coinsurance_pct),
        ("member_liability", toString member_liability),
        ("payer_liability", toString payer_liability)] }
  else none

/-- A registered rule function: the Except layer models a Python function
that may raise (caught by _run_validation). -/
abbrev RuleFn := ClaimContext → BenefitConfiguration → Except String (Option ValidationResult)

/-- Wrap a non-raising rule body as a registered rule function. -/
def pureRule (f : ClaimContext → BenefitConfiguration → Option ValidationResult) :
    RuleFn := fun ctx b => .ok (f ctx b)

/-- The rule registry built by _initialize_rules: code, human name, rule
function, in registration order. -/
def defaultRegistry : List (String × String × RuleFn) :=
  [("VAL001", "Age Eligibility", pureRule validate_age_eligibility),
   ("VAL002", "Waiting Period", pureRule validate_waiting_period),
   ("VAL003", "Annual Limit", pureRule validate_annual_limit),
   ("VAL004", "Pre-Authorization", pureRule validate_preauthorization),
   ("VAL005", "Medical Indication", pureRule validate_medical_indication),
   ("VAL006", "Exclusions", pureRule validate_exclusions),
   ("VAL007", "Channel Eligibility", pureRule validate_channel),
   ("VAL008", "Duplicate Claim", pureRule validate_duplicate),
   ("VAL009", "Prerequisites", pureRule validate_prerequisites),
   ("VAL010", "Accumulator Limits", pureRule validate_accumulators),
   ("VAL011", "Room Upgrade", pureRule validate_room_upgrade),
   ("VAL012", "Surgery Classification", pureRule validate_surgery_class),
   ("VAL013", "Pre/Post Hospitalization", pureRule validate_pre_post_hosp),
   ("VAL014", "ICU Limits", pureRule validate_icu_limits),
   ("VAL015", "Recovery Period", pureRule validate_recovery_period),
   ("VAL016", "Visit Limits", pureRule validate_visit_limits),
   ("VAL017", "Package Benefits", pureRule validate_package_benefits),
   ("VAL018", "Referral Required", pureRule validate_referral),
   ("VAL019", "Maternity Eligibility", pureRule validate_maternity),
   ("VAL020", "Dental Classification", pureRule validate_dental_class),
   ("VAL021", "Optical Cycle", pureRule validate_optical_cycle),
   ("VAL022", "Mental Health Sessions", pureRule validate_mental_health),
   ("VAL023", "ASO Fund Availability", pureRule validate_aso_funds),
   ("VAL024", "Buffer Fund Check", pureRule validate_buffer_funds),
   ("VAL025", "Coinsurance Calculation", pureRule validate_coinsurance)]

/-- Dict lookup in the registry (validation_rules[rule_code]). -/
def registryLookup (reg : List (String × String × RuleFn)) (code : String) :
    Option (String × RuleFn) :=
  (reg.find? (fun e => e.1 == code)).map (fun e => e.2)

/-- _get_applicable_rules: the base rules in registration-list order followed
by the category-specific extensions. -/
def applicableRules (category : BenefitCategory) : List String :=
  let rules := ["VAL001", "VAL002", "VAL003", "VAL004", "VAL005", "VAL006",
    "VAL007", "VAL008", "VAL009", "VAL010", "VAL023", "VAL024", "VAL025"]
  match category with
  | .INPATIENT => rules ++ ["VAL011", "VAL012", "VAL013", "VAL014", "VAL015"]
  | .OUTPATIENT => rules ++ ["VAL016", "VAL017", "VAL018"]
  | .MATERNITY => rules ++ ["VAL019"]
  | .DENTAL => rules ++ ["VAL020"]
  | .OPTICAL => rules ++ ["VAL021"]
  | .MENTAL_HEALTH => rules ++ ["VAL022"]
  | _ => rules

/-- _run_validation: on a normal result stamp the rule code and name; on a
raised exception return the synthetic FAILED result carrying the message. -/
def runValidation (rule_code rule_name : String) (f : RuleFn)
    (ctx : ClaimContext) (b : BenefitConfiguration) : Option ValidationResult :=
  match f ctx b with
  | .ok (some r) => some { r with rule_code := rule_code, rule_name := rule_name }
  | .ok none => none
  | .error e =>
    some {
      rule_code := rule_code, rule_name := rule_name, status := .FAILED,
      message := "Validation error: " ++ e }

/-- The unsorted result collection of validate_claim: each applicable rule
that is present in the registry contributes its optional result, in
applicable-rule order (the deterministic aggregation order). -/
def collectResults (reg : List (String × String × RuleFn))
    (ctx : ClaimContext) (b : BenefitConfiguration) : List ValidationResult :=
  (applicableRules b.category).filterMap (fun code =>
    match registryLookup reg code with
    | some nf => runValidation code nf.1 nf.2 ctx b
    | none => none)

/-- Numeric encoding of the sort key tuple
(status==FAILED, status==WARNING, status==PENDING): since the three flags
are mutually exclusive, lexicographic comparison of the boolean triple
coincides with comparison of this rank. -/
def statusRank : ValidationStatus → ℕ
  | .FAILED => 3
  | .WARNING => 2
  | .PENDING => 1
  | .PASSED => 0

/-- Stable descending insertion by status rank: x passes over strictly
higher ranks and stops in front of the first rank less than or equal to its
own, so earlier elements of the input stay in front of later equals. -/
def insertRes (x : ValidationResult) : List ValidationResult → List ValidationResult
  | [] => [x]
  | y :: ys =>
    if statusRank y.status ≤ statusRank x.status then x :: y :: ys
    else y :: insertRes x ys

/-- Stable sort by descending status rank, modelling list.sort(key=...,
reverse=True) of the source (Python sorts are stable, also under reverse). -/
def sortResults : List ValidationResult → List ValidationResult
  | [] => []
  | x :: xs => insertRes x (sortResults xs)

/-- validate_claim over an explicit registry: collect the results of the
applicable registered rules, then sort by severity. -/
def validateClaimWith (reg : List (String × String × RuleFn))
    (ctx : ClaimContext) (b : BenefitConfiguration) : List ValidationResult :=
  sortResults (collectResults reg ctx b)

/-- validate_claim with the registry built by _initialize_rules. -/
def validate_claim (ctx : ClaimContext) (b : BenefitConfiguration) :
    List ValidationResult :=
  validateClaimWith defaultRegistry ctx b

/-- calculate_allowed_amount: cap the claim at the truthy limit (an unset or
zero limit leaves the claim uncapped) and apply the settlement
percentage. -/
def calculate_allowed_amount (ctx : ClaimContext) (b : BenefitConfiguration) : ℚ :=
  let orLimit : ℚ :=
    match b.limit_value with
    | some v => if v ≠ 0 then v else ctx.claimed_amount
    | none => ctx.claimed_amount
  let allowed := min ctx.claimed_amount orLimit
  allowed * (b.claim_settlement_pct : ℚ) / 100

/-- get_pend_reasons: messages of FAILED and PENDING results, in order. -/
def get_pend_reasons (results : List ValidationResult) : List String :=
  (results.filter (fun r =>
    decide (r.status = ValidationStatus.FAILED ∨ r.status = ValidationStatus.PENDING))).map
    (fun r => r.message)

/-- can_auto_adjudicate: no FAILED and no PENDING result. -/
def can_auto_adjudicate (results : List ValidationResult) : Bool :=
  ! results.any (fun r =>
    decide (r.status = ValidationStatus.FAILED ∨ r.status = ValidationStatus.PENDING))

/-- Evaluation of one applicable rule code against the default registry, as
performed inside validate_claim (registry lookup, then _run_validation). -/
def evalDefault (code : String) (ctx : ClaimContext) (b : BenefitConfiguration) :
    Option ValidationResult :=
  match registryLookup defaultRegistry code with
  | some nf => runValidation code nf.1 nf.2 ctx b
  | none => none

/-- The statuses a default-registry rule can produce on well-typed input
(placeholder rules produce none; VAL003 is the only two-status rule and
VAL025 the only rule emitting an explicit PASSED result). -/
def possStatuses : String → List ValidationStatus
  | "VAL001" => [.FAILED]
  | "VAL002" => [.FAILED]
  | "VAL003" => [.FAILED, .WARNING]
  | "VAL004" => [.FAILED]
  | "VAL005" => [.FAILED]
  | "VAL006" => [.FAILED]
  | "VAL008" => [.WARNING]
  | "VAL013" => [.FAILED]
  | "VAL016" => [.FAILED]
  | "VAL025" => [.PASSED]
  | _ => []

/-- Two rule codes listed in this order can never break the sorted-output
ordering: either they share no producible status, or the earlier code is
lexicographically smaller. -/
def pairOK (c c' : String) : Bool :=
  ((possStatuses c).all (fun s => decide (s ∉ possStatuses c'))) ||
    decide (c.toList < c'.toList)

/-- The ordering the spec asserts for validate_claim output: strictly higher
severity first, and ascending rule_code inside a severity tier. -/
def ResOrdered (x y : ValidationResult) : Prop :=
  statusRank y.status < statusRank x.status ∨
    (x.status = y.status ∧ x.rule_code < y.rule_code)

end Validation

namespace Pricing

/-- Modelled from the spec: the category factor as the specification words it
in section 4.4.2 and claim C6, with the maternity demographic count
restricted to ACTIVE female members aged 18-45.  Written for comparison
with calcCategoryFactor, whose count is not restricted by member status. -/
def specCategoryFactor (cfg : PolicyConfig) (category : BenefitCategory) : ℚ :=
  let small : ℚ :=
    if cfg.participant_count < 15 then 1.5
    else if cfg.participant_count < 25 then 1.25
    else if cfg.participant_count < 50 then 1.1
    else 1
  let activeFemales :=
    (cfg.members.filter (fun m =>
      decide (m.status = "ACTIVE" ∧ m.gender = Gender.FEMALE ∧ 18 ≤ m.age ∧ m.age ≤ 45))).length
  if category = BenefitCategory.MATERNITY ∧
      (activeFemales : ℚ) > 0.4 * (cfg.participant_count : ℚ) then small * 1.15
  else small

/-- An empty catalog database (no factors, options or age bands). -/
def dbEmpty : PricingDB := ⟨[], [], []⟩

/-- An ACTIVE female member aged 30. -/
def memberFA (n : ℕ) : PolicyMember :=
  ⟨n, "F", Gender.FEMALE, 30, "ACTIVE", 0⟩

/-- A TERMINATED female member aged 30. -/
def memberFT (n : ℕ) : PolicyMember :=
  ⟨n, "F", Gender.FEMALE, 30, "TERMINATED", 0⟩

/-- An ACTIVE male member aged 30. -/
def memberMA (n : ℕ) : PolicyMember :=
  ⟨n, "M", Gender.MALE, 30, "ACTIVE", 0⟩

/-- C6 input: 5 stored participants; ACTIVE members are 2 females and 3
males aged 30, plus one TERMINATED female aged 30.  2 ACTIVE females do
not exceed 0.4 x 5 = 2, but the code counts the TERMINATED female too. -/
def cfgC6x : PolicyConfig where
  participant_count := 5
  status := PolicyStatus.DRAFT
  members := [memberFA 1, memberFA 2, memberFT 3, memberMA 4, memberMA 5, memberMA 6]
  benefit_selections := [⟨BenefitCategory.MATERNITY, none, false, 1⟩]
  tc_selections := []
  approval_workflows := []
  total_base_premium := none
  total_factor_multiplier := none
  total_adjusted_premium := none

/-- C4 witness input: a DRAFT config satisfying every submission
precondition (5 participants, a selected benefit, an ACTIVE member). -/
def cfgC4w : PolicyConfig where
  participant_count := 5
  status := PolicyStatus.DRAFT
  members := [memberMA 1]
  benefit_selections := [⟨BenefitCategory.INPATIENT, none, true, 1⟩]
  tc_selections := []
  approval_workflows := []
  total_base_premium := none
  total_factor_multiplier := none
  total_adjusted_premium := none

/-- C9 witness input: a config whose only benefit selection row is for
INPATIENT, so a toggle of OPTICAL finds no row. -/
def cfgC9w : PolicyConfig where
  participant_count := 10
  status := PolicyStatus.DRAFT
  members := [memberMA 1]
  benefit_selections := [⟨BenefitCategory.INPATIENT, none, true, 1⟩]
  tc_selections := []
  approval_workflows := []
  total_base_premium := none
  total_factor_multiplier := none
  total_adjusted_premium := none

/-- C7 counterexample option: max_participants is set, to 0 (falsy in
Python), so the source skips the upper-bound check entirely. -/
def optC7x : TCFactorOption :=
  ⟨10, 1, "OPT", 1.05, none, some 0, false⟩

/-- C7 counterexample catalog: one factor with the zero-upper-bound option. -/
def dbC7x : PricingDB :=
  ⟨[⟨1, "PAYMENT", true⟩], [optC7x], []⟩

/-- C7 counterexample config: one participant, which is above the stored
upper bound of 0. -/
def cfgC7x : PolicyConfig where
  participant_count := 1
  status := PolicyStatus.DRAFT
  members := []
  benefit_selections := []
  tc_selections := []
  approval_workflows := []
  total_base_premium := none
  total_factor_multiplier := none
  total_adjusted_premium := none

/-- C7 witness option: both bounds set and nonzero, satisfied by 20
participants. -/
def optC7w : TCFactorOption :=
  ⟨11, 1, "OPT2", 1.2, some 5, some 100, true⟩

/-- C7 witness catalog. -/
def dbC7w : PricingDB :=
  ⟨[⟨1, "PAYMENT", true⟩], [optC7x, optC7w], []⟩

/-- C7 witness config with 20 participants and no TC selection rows yet. -/
def cfgC7w : PolicyConfig where
  participant_count := 20
  status := PolicyStatus.DRAFT
  members := []
  benefit_selections := []
  tc_selections := []
  approval_workflows := []
  total_base_premium := none
  total_factor_multiplier := none
  total_adjusted_premium := none

end Pricing

namespace Validation

/-- C2 counterexample benefit: a base-rules-only category with an annual
limit of 100. -/
def benC2x : BenefitConfiguration where
  benefit_code := "B1"
  benefit_name := "Benefit"
  category := BenefitCategory.PREVENTIVE
  coverage_type := CoverageType.COVERED_STANDARD
  limit_value := some 100

/-- C2 counterexample context: the annual accumulator already equals the
limit (used = 100 >= 100) while the claimed amount is 0. -/
def ctxC2x : ClaimContext where
  claim_id := "CLM1"
  member_id := "M1"
  member_age_years := 30
  plan_id := "P1"
  benefit_code := "B1"
  service_date := 20000
  accumulator_balances := [("B1_annual", 100)]

/-- C2 witness benefit: annual limit 100. -/
def benC2w : BenefitConfiguration where
  benefit_code := "B1"
  benefit_name := "Benefit"
  category := BenefitCategory.PREVENTIVE
  coverage_type := CoverageType.COVERED_STANDARD
  limit_value := some 100

/-- C2 witness context: used 50, claimed 60, so the claim exceeds the
remaining 50 while some allowance remains. -/
def ctxC2w : ClaimContext where
  claim_id := "CLM2"
  member_id := "M1"
  member_age_years := 30
  plan_id := "P1"
  benefit_code := "B1"
  service_date := 20000
  claimed_amount := 60
  accumulator_balances := [("B1_annual", 50)]

/-- C10 witness benefit: limit_value is exactly 0 with 80 percent
settlement. -/
def benC10w : BenefitConfiguration where
  benefit_code := "B2"
  benefit_name := "Benefit"
  category := BenefitCategory.OUTPATIENT
  coverage_type := CoverageType.COVERED_STANDARD
  claim_settlement_pct := 80
  limit_value := some 0

/-- C10 witness context claiming 500. -/
def ctxC10w : ClaimContext where
  claim_id := "CLM3"
  member_id := "M1"
  member_age_years := 30
  plan_id := "P1"
  benefit_code := "B2"
  service_date := 20000
  claimed_amount := 500

/-- C5 witness registry: VAL001 is replaced by a rule function that raises,
while VAL025 keeps its normal body. -/
def regC5w : List (String × String × RuleFn) :=
  [("VAL001", "Age Eligibility", fun _ _ => .error "boom"),
   ("VAL025", "Coinsurance Calculation", pureRule validate_coinsurance)]

/-- C5 witness benefit: 20 percent coinsurance so that VAL025 produces a
PASSED result. -/
def benC5w : BenefitConfiguration where
  benefit_code := "B3"
  benefit_name := "Benefit"
  category := BenefitCategory.PREVENTIVE
  coverage_type := CoverageType.COVERED_STANDARD
  coinsurance_pct := 20

/-- C5 witness context claiming 1000. -/
def ctxC5w : ClaimContext where
  claim_id := "CLM4"
  member_id := "M1"
  member_age_years := 30
  plan_id := "P1"
  benefit_code := "B3"
  service_date := 20000
  claimed_amount := 1000

end Validation

/-! ## Theorems -/

section PricingClaims

open Pricing

/-- C1: for every configuration, calculate_premium computes
admin_fee = max(100000, 0.05 x adjusted_premium),
tpa_fee = max(100000, 10000 x participant_count), and
total_premium = round_half_up(adjusted_premium + admin_fee + tpa_fee, 2). -/
theorem C1_premium_fee_formulas (db : PricingDB) (cfg : PolicyConfig) :
    (calculate_premium db cfg).1.admin_fee =
      max 100000 (0.05 * (calculate_premium db cfg).1.adjusted_premium) ∧
    (calculate_premium db cfg).1.tpa_fee =
      max 100000 (10000 * (cfg.participant_count : ℚ)) ∧
    (calculate_premium db cfg).1.total_premium =
      roundHalfUp2 ((calculate_premium db cfg).1.adjusted_premium +
        (calculate_premium db cfg).1.admin_fee + (calculate_premium db cfg).1.tpa_fee) := by
  refine ⟨?_, ?_, rfl⟩
  · show calcAdminFee _ = _
    rw [calcAdminFee, mul_comm]
    rfl
  · show calcTpaFee cfg = _
    rw [calcTpaFee, max_comm]

/-- C8: calculate_premium yields per_member_average 0 when
participant_count is 0 (no division error) and total_premium divided by
participant_count otherwise. -/
theorem C8_per_member_average (db : PricingDB) (cfg : PolicyConfig) :
    (calculate_premium db cfg).1.per_member_average =
      (if 0 < cfg.participant_count
        then (calculate_premium db cfg).1.total_premium / (cfg.participant_count : ℚ)
        else 0) := rfl

/-- C9: when a configuration has no BenefitSelection row for a category,
toggle_benefit_category returns None and leaves the configuration
unchanged rather than raising. -/
theorem C9_toggle_missing_row (cfg : PolicyConfig) (category : BenefitCategory)
    (sel : Bool) (h : ∀ s ∈ cfg.benefit_selections, s.benefit_category ≠ category) :
    toggle_benefit_category cfg category sel = (none, cfg) := by
  unfold toggle_benefit_category
  have hfind : cfg.benefit_selections.find?
      (fun s => decide (s.benefit_category = category)) = none := by
    rw [List.find?_eq_none]
    intro s hs
    simpa using h s hs
  rw [hfind]

/-- C9 witness: toggling OPTICAL on a config that only has an INPATIENT
selection row is a no-op returning None. -/
theorem C9_toggle_missing_row_witness :
    toggle_benefit_category cfgC9w BenefitCategory.OPTICAL true = (none, cfgC9w) :=
  C9_toggle_missing_row cfgC9w BenefitCategory.OPTICAL true (by decide)

/-- C4: submit_for_approval fails with the first violated reason exactly
when status is not DRAFT, participant_count is below 5, no benefit is
selected, or no ACTIVE member exists; otherwise it succeeds and the
resulting configuration status is QUOTED. -/
theorem C4_submit_preconditions (db : PricingDB) (cfg : PolicyConfig) :
    (cfg.status ≠ PolicyStatus.DRAFT →
      submit_for_approval db cfg =
        .error "Only draft configurations can be submitted for approval") ∧
    (cfg.status = PolicyStatus.DRAFT → cfg.participant_count < 5 →
      submit_for_approval db cfg = .error "Minimum 5 participants required") ∧
    (cfg.status = PolicyStatus.DRAFT → ¬ cfg.participant_count < 5 →
      cfg.benefit_selections.any (fun s => s.is_selected) = false →
      submit_for_approval db cfg = .error "At least one benefit must be selected") ∧
    (cfg.status = PolicyStatus.DRAFT → ¬ cfg.participant_count < 5 →
      cfg.benefit_selections.any (fun s => s.is_selected) = true →
      (activeMembers cfg).length = 0 →
      submit_for_approval db cfg = .error "No members enrolled") ∧
    (cfg.status = PolicyStatus.DRAFT → ¬ cfg.participant_count < 5 →
      cfg.benefit_selections.any (fun s => s.is_selected) = true →
      (activeMembers cfg).length ≠ 0 →
      ∃ cfg', submit_for_approval db cfg = .ok cfg' ∧
        cfg'.status = PolicyStatus.QUOTED) := by
  unfold submit_for_approval validateConfiguration
  refine ⟨?_, ?_, ?_, ?_, ?_⟩
  · intro h
    rw [if_pos h]
  · intro hd hp
    simp only [hd, ne_eq, not_true_eq_false, if_false, if_pos hp]
  · intro hd hp hb
    simp only [hd, ne_eq, not_true_eq_false, if_false, if_neg hp, hb,
      Bool.not_false, if_pos]
  · intro hd hp hb hm
    simp only [hd, ne_eq, not_true_eq_false, if_false, if_neg hp, hb,
      Bool.not_true, Bool.false_eq_true, if_false, if_pos hm]
  · intro hd hp hb hm
    simp only [hd, ne_eq, not_true_eq_false, if_false, if_neg hp, hb,
      Bool.not_true, Bool.false_eq_true, if_false, if_neg hm]
    exact ⟨_, rfl, rfl⟩

/-- C4 witness: a DRAFT config with 5 participants, a selected benefit and
an ACTIVE member submits successfully and becomes QUOTED. -/
theorem C4_submit_preconditions_witness :
    ∃ cfg', submit_for_approval dbEmpty cfgC4w = .ok cfg' ∧
      cfg'.status = PolicyStatus.QUOTED :=
  (C4_submit_preconditions dbEmpty cfgC4w).2.2.2.2 rfl (by decide) (by decide) (by decide)

/-- The category factor computed by the code, rewritten as a product of the
small-group loading and the maternity demographic loading (whose count is
not restricted by member status). -/
theorem calcCategoryFactor_eq (cfg : PolicyConfig) (category : BenefitCategory) :
    calcCategoryFactor cfg category =
      (if cfg.participant_count < 15 then (1.5 : ℚ)
        else if cfg.participant_count < 25 then 1.25
        else if cfg.participant_count < 50 then 1.1 else 1) *
      (if category = BenefitCategory.MATERNITY ∧
          (((cfg.members.filter (fun m =>
            decide (m.gender = Gender.FEMALE ∧ 18 ≤ m.age ∧ m.age ≤ 45))).length : ℚ) >
            0.4 * (cfg.participant_count : ℚ))
        then (1.15 : ℚ) else 1) := by
  simp only [calcCategoryFactor]
  rw [show ((cfg.participant_count : ℚ) * 0.4) = 0.4 * (cfg.participant_count : ℚ) from
    mul_comm _ _]
  by_cases hm : category = BenefitCategory.MATERNITY
  · subst hm
    rw [if_pos rfl]
    simp only [eq_self_iff_true, true_and]
    by_cases hc : (((cfg.members.filter (fun m =>
        decide (m.gender = Gender.FEMALE ∧ 18 ≤ m.age ∧ m.age ≤ 45))).length : ℚ) >
        0.4 * (cfg.participant_count : ℚ))
    · rw [if_pos hc, if_pos hc]
      split_ifs <;> ring
    · rw [if_neg hc, if_neg hc, mul_one]
      split_ifs <;> ring
  · have hno : ¬(category = BenefitCategory.MATERNITY ∧
        (((cfg.members.filter (fun m =>
          decide (m.gender = Gender.FEMALE ∧ 18 ≤ m.age ∧ m.age ≤ 45))).length : ℚ) >
          0.4 * (cfg.participant_count : ℚ))) := fun hh => hm hh.1
    rw [if_neg hm, if_neg hno, mul_one]
    split_ifs <;> ring

/-- C6 counterexample: on cfgC6x (5 stored participants, 2 ACTIVE females
aged 30, 1 TERMINATED female aged 30) toggling MATERNITY on yields factor
1.5 x 1.15 = 69/40 because the code counts the TERMINATED female, while
the claimed formula (ACTIVE females only: 2, not above 0.4 x 5) yields
1.5 = 3/2. -/
theorem C6_category_factor_counterexample :
    ((toggle_benefit_category cfgC6x BenefitCategory.MATERNITY true).1.map
      (fun s => s.category_factor)) = some (69/40) ∧
    specCategoryFactor cfgC6x BenefitCategory.MATERNITY = 3/2 ∧
    ((69 : ℚ)/40) ≠ 3/2 := by
  have h1 : (toggle_benefit_category cfgC6x BenefitCategory.MATERNITY true).1 =
      some ⟨BenefitCategory.MATERNITY, none, true,
        calcCategoryFactor cfgC6x BenefitCategory.MATERNITY⟩ := rfl
  have h2 : calcCategoryFactor cfgC6x BenefitCategory.MATERNITY =
      (if (((3 : ℕ) : ℚ) > ((5 : ℕ) : ℚ) * 0.4) then (1 : ℚ) * 1.5 * 1.15
        else (1 : ℚ) * 1.5) := rfl
  refine ⟨?_, ?_, by norm_num⟩
  · rw [h1]
    show some _ = _
    rw [h2]
    norm_num
  · have h3 : specCategoryFactor cfgC6x BenefitCategory.MATERNITY =
        (if (BenefitCategory.MATERNITY = BenefitCategory.MATERNITY ∧
            (((2 : ℕ) : ℚ) > 0.4 * ((5 : ℕ) : ℚ))) then (1.5 : ℚ) * 1.15
          else (1.5 : ℚ)) := rfl
    rw [h3]
    norm_num

/-- C6 amended: when a benefit category with a selection row is toggled on,
its category_factor equals the small-group loading multiplied (for
MATERNITY) by 1.150 when the number of female members aged 18-45 of any
status exceeds 0.40 x participant_count; toggling off resets the factor
to 1.000. -/
theorem C6_category_factor_amended (cfg : PolicyConfig) (category : BenefitCategory)
    (s : BenefitSelection)
    (h : cfg.benefit_selections.find? (fun t => decide (t.benefit_category = category)) =
      some s) :
    (∃ s1, (toggle_benefit_category cfg category true).1 = some s1 ∧
      s1.category_factor =
        (if cfg.participant_count < 15 then (1.5 : ℚ)
          else if cfg.participant_count < 25 then 1.25
          else if cfg.participant_count < 50 then 1.1 else 1) *
        (if category = BenefitCategory.MATERNITY ∧
            (((cfg.members.filter (fun m =>
              decide (m.gender = Gender.FEMALE ∧ 18 ≤ m.age ∧ m.age ≤ 45))).length : ℚ) >
              0.4 * (cfg.participant_count : ℚ))
          then 1.15 else 1)) ∧
    (∃ s0, (toggle_benefit_category cfg category false).1 = some s0 ∧
      s0.category_factor = 1) := by
  unfold toggle_benefit_category
  rw [h]
  exact ⟨⟨_, rfl, calcCategoryFactor_eq cfg category⟩, ⟨_, rfl, rfl⟩⟩

/-- C6 amended witness: on cfgC6x, toggling MATERNITY on yields the factor
given by the amended formula, 1.5 x 1.15 = 69/40. -/
theorem C6_category_factor_amended_witness :
    ∃ s1, (toggle_benefit_category cfgC6x BenefitCategory.MATERNITY true).1 = some s1 ∧
      s1.category_factor = 69/40 := by
  obtain ⟨⟨s1, h1, h2⟩, -⟩ :=
    C6_category_factor_amended cfgC6x BenefitCategory.MATERNITY
      ⟨BenefitCategory.MATERNITY, none, false, 1⟩ rfl
  refine ⟨s1, h1, ?_⟩
  rw [h2]
  have hflt : ((cfgC6x.members.filter (fun m =>
      decide (m.gender = Gender.FEMALE ∧ 18 ≤ m.age ∧ m.age ≤ 45))).length : ℚ) =
      ((3 : ℕ) : ℚ) := rfl
  rw [hflt]
  norm_num [cfgC6x]

/-- C7 counterexample: an option whose max_participants column is set to 0
is not enforced (Python truthiness skips the bound), so an update with
participant_count above the stored bound succeeds instead of raising. -/
theorem C7_tc_bounds_counterexample :
    (update_tc_factor dbC7x cfgC7x "PAYMENT" "OPT").toOption.isSome = true ∧
    optC7x.max_participants = some 0 ∧
    ((cfgC7x.participant_count : ℤ) > (optC7x.max_participants.getD 0)) :=
  ⟨rfl, rfl, by decide⟩

/-- C7 amended: update_tc_factor raises the validation error naming the
violated bound when a bound is set and nonzero and violated (min checked
first); on a valid change it returns a selection carrying the chosen
option_id and multiplier as applied_multiplier, and the factors/update
endpoint then recomputes the premium on the updated config. -/
theorem C7_tc_bounds_amended (db : PricingDB) (cfg : PolicyConfig)
    (fc ov : String) (factor : TCFactorConfig) (opt : TCFactorOption)
    (hf : db.tc_factors.find? (fun f => f.factor_code == fc) = some factor)
    (ho : db.tc_options.find? (fun o =>
        o.factor_id == factor.factor_id && o.option_value == ov) = some opt) :
    ((truthyInt opt.min_participants &&
        decide ((cfg.participant_count : ℤ) < opt.min_participants.getD 0)) = true →
      update_tc_factor db cfg fc ov =
        .error ("Minimum " ++ toString (opt.min_participants.getD 0) ++
          " participants required")) ∧
    ((truthyInt opt.min_participants &&
        decide ((cfg.participant_count : ℤ) < opt.min_participants.getD 0)) = false →
      (truthyInt opt.max_participants &&
        decide ((cfg.participant_count : ℤ) > opt.max_participants.getD 0)) = true →
      update_tc_factor db cfg fc ov =
        .error ("Maximum " ++ toString (opt.max_participants.getD 0) ++
          " participants allowed")) ∧
    ((truthyInt opt.min_participants &&
        decide ((cfg.participant_count : ℤ) < opt.min_participants.getD 0)) = false →
      (truthyInt opt.max_participants &&
        decide ((cfg.participant_count : ℤ) > opt.max_participants.getD 0)) = false →
      ∃ sel cfg1, update_tc_factor db cfg fc ov = .ok (sel, cfg1) ∧
        sel.option_id = some opt.option_id ∧
        sel.applied_multiplier = opt.multiplier ∧
        updateTCFactorEndpoint db cfg fc ov =
          .ok (sel, (calculate_premium db cfg1).2, (calculate_premium db cfg1).1)) := by
  refine ⟨?_, ?_, ?_⟩
  · intro h1
    simp only [update_tc_factor, hf, ho, h1, if_true]
  · intro h1 h2
    simp only [update_tc_factor, hf, ho, h1, h2, Bool.false_eq_true, if_false, if_true]
  · intro h1 h2
    have hupd : ∃ sel cfg1, update_tc_factor db cfg fc ov = .ok (sel, cfg1) ∧
        sel.option_id = some opt.option_id ∧ sel.applied_multiplier = opt.multiplier := by
      simp only [update_tc_factor, hf, ho, h1, h2, Bool.false_eq_true, if_false]
      exact ⟨_, _, rfl, rfl, rfl⟩
    obtain ⟨sel, cfg1, hupd, ho1, ho2⟩ := hupd
    refine ⟨sel, cfg1, hupd, ho1, ho2, ?_⟩
    unfold updateTCFactorEndpoint
    rw [hupd]

/-- C7 amended witness: with both bounds set, nonzero and satisfied (5 and
100 against 20 participants), the update succeeds, sets option_id 11 and
applied_multiplier 1.2, and the endpoint recomputes the premium. -/
theorem C7_tc_bounds_amended_witness :
    ∃ sel cfg1, update_tc_factor dbC7w cfgC7w "PAYMENT" "OPT2" = .ok (sel, cfg1) ∧
      sel.option_id = some optC7w.option_id ∧
      sel.applied_multiplier = optC7w.multiplier ∧
      updateTCFactorEndpoint dbC7w cfgC7w "PAYMENT" "OPT2" =
        .ok (sel, (calculate_premium dbC7w cfg1).2, (calculate_premium dbC7w cfg1).1) :=
  (C7_tc_bounds_amended dbC7w cfgC7w "PAYMENT" "OPT2" ⟨1, "PAYMENT", true⟩ optC7w
    rfl rfl).2.2 (by decide) (by decide)

end PricingClaims

section ValidationClaims

open Validation

/-- C10: when limit_value is exactly 0, calculate_allowed_amount leaves the
claim uncapped and returns claimed_amount x claim_settlement_pct / 100. -/
theorem C10_zero_limit_unlimited (ctx : ClaimContext) (b : BenefitConfiguration)
    (h : b.limit_value = some 0) :
    calculate_allowed_amount ctx b =
      ctx.claimed_amount * (b.claim_settlement_pct : ℚ) / 100 := by
  unfold calculate_allowed_amount
  rw [h]
  simp

/-- C10 witness: limit 0, settlement 80 percent, claim 500 gives 400. -/
theorem C10_zero_limit_unlimited_witness :
    calculate_allowed_amount ctxC10w benC10w = 400 := by
  rw [C10_zero_limit_unlimited ctxC10w benC10w rfl]
  norm_num [ctxC10w, benC10w]

/-- C2 counterexample: with limit 100, used 100 (so used >= limit) and
claimed 0, the annual-limit rule returns no result instead of the FAILED
result the claim requires. -/
theorem C2_annual_limit_counterexample :
    benC2x.limit_value = some 100 ∧
    dictGet ctxC2x.accumulator_balances (benC2x.benefit_code ++ "_annual") 0 = 100 ∧
    ctxC2x.claimed_amount = 0 ∧
    validate_annual_limit ctxC2x benC2x = none := by
  refine ⟨rfl, rfl, rfl, ?_⟩
  have hd : dictGet [("B1_annual", (100 : ℚ))] ("B1" ++ "_annual") 0 = 100 := rfl
  norm_num [validate_annual_limit, ctxC2x, benC2x, hd]

/-- C2 amended: with a set, nonzero limit_value, VAL003 produces a result
exactly when claimed_amount exceeds remaining = limit_value - used_amount;
that result is FAILED when remaining is not positive and WARNING
otherwise, with can_override and required authority level 2 in both
cases. -/
theorem C2_annual_limit_amended (ctx : ClaimContext) (b : BenefitConfiguration) (lv : ℚ)
    (hl : b.limit_value = some lv) (hnz : lv ≠ 0) :
    (ctx.claimed_amount ≤
        lv - dictGet ctx.accumulator_balances (b.benefit_code ++ "_annual") 0 →
      validate_annual_limit ctx b = none) ∧
    (ctx.claimed_amount >
        lv - dictGet ctx.accumulator_balances (b.benefit_code ++ "_annual") 0 →
      ∃ r, validate_annual_limit ctx b = some r ∧
        r.status =
          (if lv - dictGet ctx.accumulator_balances (b.benefit_code ++ "_annual") 0 ≤ 0
            then ValidationStatus.FAILED else ValidationStatus.WARNING) ∧
        r.can_override = true ∧ r.required_authority_level = 2) := by
  constructor
  · intro hle
    simp only [validate_annual_limit, hl]
    rw [if_pos hnz, if_neg (not_lt.mpr hle)]
  · intro hgt
    simp only [validate_annual_limit, hl]
    rw [if_pos hnz, if_pos hgt]
    exact ⟨_, rfl, rfl, rfl, rfl⟩

/-- C2 amended witness: limit 100, used 50, claimed 60 exceeds the
remaining 50, giving an overridable WARNING at authority level 2. -/
theorem C2_annual_limit_amended_witness :
    ∃ r, validate_annual_limit ctxC2w benC2w = some r ∧
      r.status = ValidationStatus.WARNING ∧
      r.can_override = true ∧ r.required_authority_level = 2 := by
  have hd : dictGet ctxC2w.accumulator_balances (benC2w.benefit_code ++ "_annual") 0 = 50 := by
    simp [dictGet, ctxC2w, benC2w]
  obtain ⟨r, hr, hs, ho, ha⟩ :=
    (C2_annual_limit_amended ctxC2w benC2w 100 rfl (by norm_num)).2
      (by rw [hd]; show (60 : ℚ) > 100 - 50; norm_num)
  refine ⟨r, hr, ?_, ho, ha⟩
  rw [hs, hd]
  norm_num

/-- Inserting into the sorted list is a permutation of consing. -/
theorem insertRes_perm (x : ValidationResult) (l : List ValidationResult) :
    (insertRes x l).Perm (x :: l) := by
  induction l with
  | nil => exact List.Perm.refl _
  | cons y ys ih =>
    rw [insertRes]
    split
    · exact List.Perm.refl _
    · exact (List.Perm.cons y ih).trans (List.Perm.swap x y ys)

/-- sortResults permutes its input: every collected result appears in the
output and nothing else does. -/
theorem sortResults_perm (l : List ValidationResult) : (sortResults l).Perm l := by
  induction l with
  | nil => exact List.Perm.refl _
  | cons x xs ih => exact (insertRes_perm x (sortResults xs)).trans (List.Perm.cons x ih)

/-- Membership is preserved by the severity sort. -/
theorem mem_sortResults {a : ValidationResult} {l : List ValidationResult} :
    a ∈ sortResults l ↔ a ∈ l :=
  (sortResults_perm l).mem_iff

/-- C5: a registered applicable rule whose function raises contributes the
synthetic FAILED result carrying its code, name and the exception message,
and every other registered applicable rule still contributes its own
result to the returned list. -/
theorem C5_rule_exception_isolation
    (reg : List (String × String × RuleFn)) (ctx : ClaimContext)
    (b : BenefitConfiguration) (code name : String) (f : RuleFn) (e : String)
    (hlook : registryLookup reg code = some (name, f))
    (happ : code ∈ applicableRules b.category)
    (herr : f ctx b = .error e) :
    ({ rule_code := code, rule_name := name, status := ValidationStatus.FAILED,
       message := "Validation error: " ++ e } : ValidationResult) ∈
      validateClaimWith reg ctx b ∧
    (∀ code' name' f' r, registryLookup reg code' = some (name', f') →
      code' ∈ applicableRules b.category →
      runValidation code' name' f' ctx b = some r →
      r ∈ validateClaimWith reg ctx b) := by
  constructor
  · rw [validateClaimWith, mem_sortResults]
    unfold collectResults
    apply List.mem_filterMap.mpr
    refine ⟨code, happ, ?_⟩
    simp only [hlook, runValidation, herr]
  · intro code' name' f' r hl' ha' hrun
    rw [validateClaimWith, mem_sortResults]
    unfold collectResults
    apply List.mem_filterMap.mpr
    refine ⟨code', ha', ?_⟩
    simp only [hl']
    exact hrun

/-- C5 witness: with VAL001 replaced by a raising function, validate_claim
still returns the synthetic VAL001 failure and the VAL025 coinsurance
result. -/
theorem C5_rule_exception_isolation_witness :
    ({ rule_code := "VAL001", rule_name := "Age Eligibility",
       status := ValidationStatus.FAILED,
       message := "Validation error: boom" } : ValidationResult) ∈
      validateClaimWith regC5w ctxC5w benC5w ∧
    ∃ r, runValidation "VAL025" "Coinsurance Calculation"
        (pureRule validate_coinsurance) ctxC5w benC5w = some r ∧
      r ∈ validateClaimWith regC5w ctxC5w benC5w := by
  have h := C5_rule_exception_isolation regC5w ctxC5w benC5w
    "VAL001" "Age Eligibility" (fun _ _ => .error "boom") "boom"
    rfl (by decide) rfl
  have hr : (runValidation "VAL025" "Coinsurance Calculation"
      (pureRule validate_coinsurance) ctxC5w benC5w).isSome = true := rfl
  obtain ⟨r, hrr⟩ := Option.isSome_iff_exists.mp hr
  exact ⟨h.1, r, hrr,
    h.2 "VAL025" "Coinsurance Calculation" (pureRule validate_coinsurance) r rfl
      (by decide) hrr⟩

/-- A pure registered rule evaluates to its raw result stamped with the rule
code and name. -/
theorem runValidation_pureRule_eq (code name : String)
    (g : ClaimContext → BenefitConfiguration → Option ValidationResult)
    (ctx : ClaimContext) (b : BenefitConfiguration) :
    runValidation code name (pureRule g) ctx b =
      (g ctx b).map (fun r0 => { r0 with rule_code := code, rule_name := name }) := by
  unfold runValidation pureRule
  cases g ctx b <;> rfl

/-- VAL001 only ever produces FAILED results. -/
theorem val001_status {ctx : ClaimContext} {b : BenefitConfiguration}
    {r : ValidationResult} (h : validate_age_eligibility ctx b = some r) :
    r.status = ValidationStatus.FAILED := by
  unfold validate_age_eligibility at h
  repeat' split at h
  all_goals first
  | exact Option.noConfusion h
  | (simp only [Option.some.injEq] at h; subst h; rfl)

/-- VAL002 only ever produces FAILED results. -/
theorem val002_status {ctx : ClaimContext} {b : BenefitConfiguration}
    {r : ValidationResult} (h : validate_waiting_period ctx b = some r) :
    r.status = ValidationStatus.FAILED := by
  simp only [validate_waiting_period] at h
  repeat' split at h
  all_goals first
  | exact Option.noConfusion h
  | (simp only [Option.some.injEq] at h; subst h; rfl)

/-- VAL003 only ever produces FAILED or WARNING results. -/
theorem val003_status {ctx : ClaimContext} {b : BenefitConfiguration}
    {r : ValidationResult} (h : validate_annual_limit ctx b = some r) :
    r.status = ValidationStatus.FAILED ∨ r.status = ValidationStatus.WARNING := by
  simp only [validate_annual_limit] at h
  repeat' split at h
  all_goals first
  | exact Option.noConfusion h
  | (simp only [Option.some.injEq] at h; subst h
     first
     | exact Or.inl rfl
     | exact Or.inr rfl)

/-- VAL004 only ever produces FAILED results. -/
theorem val004_status {ctx : ClaimContext} {b : BenefitConfiguration}
    {r : ValidationResult} (h : validate_preauthorization ctx b = some r) :
    r.status = ValidationStatus.FAILED := by
  unfold validate_preauthorization at h
  repeat' split at h
  all_goals first
  | exact Option.noConfusion h
  | (simp only [Option.some.injEq] at h; subst h; rfl)

/-- VAL005 only ever produces FAILED results. -/
theorem val005_status {ctx : ClaimContext} {b : BenefitConfiguration}
    {r : ValidationResult} (h : validate_medical_indication ctx b = some r) :
    r.status = ValidationStatus.FAILED := by
  simp only [validate_medical_indication] at h
  repeat' split at h
  all_goals first
  | exact Option.noConfusion h
  | (simp only [Option.some.injEq] at h; subst h; rfl)

/-- VAL006 only ever produces FAILED results. -/
theorem val006_status {ctx : ClaimContext} {b : BenefitConfiguration}
    {r : ValidationResult} (h : validate_exclusions ctx b = some r) :
    r.status = ValidationStatus.FAILED := by
  unfold validate_exclusions at h
  repeat' split at h
  all_goals first
  | exact Option.noConfusion h
  | (simp only [Option.some.injEq] at h; subst h; rfl)

/-- Any result delivered by findSome? satisfies a property enjoyed by every
some-result of the scanned function. -/
theorem findSome?_status {α : Type} (p : ValidationResult → Prop)
    {f : α → Option ValidationResult}
    (hf : ∀ a r, f a = some r → p r) :
    ∀ (l : List α) (r : ValidationResult), l.findSome? f = some r → p r := by
  intro l
  induction l with
  | nil => intro r h; exact Option.noConfusion h
  | cons x xs ih =>
    intro r h
    rw [List.findSome?_cons] at h
    cases hfx : f x with
    | some y =>
      rw [hfx] at h
      injection h with h2
      subst h2
      exact hf x y hfx
    | none =>
      rw [hfx] at h
      exact ih r h

/-- VAL008 only ever produces WARNING results. -/
theorem val008_status {ctx : ClaimContext} {b : BenefitConfiguration}
    {r : ValidationResult} (h : validate_duplicate ctx b = some r) :
    r.status = ValidationStatus.WARNING := by
  simp only [validate_duplicate] at h
  refine findSome?_status (fun r => r.status = ValidationStatus.WARNING) ?_ _ _ h
  intro prev r0 h0
  repeat' split at h0
  all_goals first
  | exact Option.noConfusion h0
  | (simp only [Option.some.injEq] at h0; subst h0; rfl)

/-- VAL009 produces no result (the prerequisite check is a placeholder
returning True). -/
theorem val009_none (ctx : ClaimContext) (b : BenefitConfiguration) :
    validate_prerequisites ctx b = none := by
  unfold validate_prerequisites
  have hfind : b.prerequisites.find? (fun p => ! check_prerequisite_met ctx p) = none := by
    rw [List.find?_eq_none]
    intro a _
    simp [check_prerequisite_met]
  rw [hfind]

/-- VAL013 only ever produces FAILED results. -/
theorem val013_status {ctx : ClaimContext} {b : BenefitConfiguration}
    {r : ValidationResult} (h : validate_pre_post_hosp ctx b = some r) :
    r.status = ValidationStatus.FAILED := by
  simp only [validate_pre_post_hosp] at h
  split at h
  · rename_i r2 heq
    simp only [Option.some.injEq] at h
    subst h
    repeat' split at heq
    all_goals first
    | exact Option.noConfusion heq
    | (simp only [Option.some.injEq] at heq; subst heq; rfl)
  · repeat' split at h
    all_goals first
    | exact Option.noConfusion h
    | (simp only [Option.some.injEq] at h; subst h; rfl)

/-- VAL016 only ever produces FAILED results. -/
theorem val016_status {ctx : ClaimContext} {b : BenefitConfiguration}
    {r : ValidationResult} (h : validate_visit_limits ctx b = some r) :
    r.status = ValidationStatus.FAILED := by
  simp only [validate_visit_limits] at h
  repeat' split at h
  all_goals first
  | exact Option.noConfusion h
  | (simp only [Option.some.injEq] at h; subst h; rfl)

/-- VAL025 only ever produces PASSED results. -/
theorem val025_status {ctx : ClaimContext} {b : BenefitConfiguration}
    {r : ValidationResult} (h : validate_coinsurance ctx b = some r) :
    r.status = ValidationStatus.PASSED := by
  simp only [validate_coinsurance] at h
  repeat' split at h
  all_goals first
  | exact Option.noConfusion h
  | (simp only [Option.some.injEq] at h; subst h; rfl)

/-- Every registry entry stamps results with its own code and only produces
statuses listed in possStatuses. -/
theorem entry_sound (code name : String) (fn : RuleFn)
    (he : (code, name, fn) ∈ defaultRegistry) (ctx : ClaimContext)
    (b : BenefitConfiguration) (r : ValidationResult)
    (h : runValidation code name fn ctx b = some r) :
    r.rule_code = code ∧ r.status ∈ possStatuses code := by
  fin_cases he <;>
    (rw [runValidation_pureRule_eq] at h
     obtain ⟨r0, hg, rfl⟩ := Option.map_eq_some'.mp h
     refine ⟨rfl, show r0.status ∈ _ from ?_⟩)
  all_goals first
  | (rw [val001_status hg]; decide)
  | (rw [val002_status hg]; decide)
  | (rcases val003_status hg with h3 | h3 <;> rw [h3] <;> decide)
  | (rw [val004_status hg]; decide)
  | (rw [val005_status hg]; decide)
  | (rw [val006_status hg]; decide)
  | (rw [val008_status hg]; decide)
  | (rw [val009_none] at hg; exact Option.noConfusion hg)
  | (rw [val013_status hg]; decide)
  | (rw [val016_status hg]; decide)
  | (rw [val025_status hg]; decide)
  | (simp only [validate_channel, validate_accumulators, validate_room_upgrade,
      validate_surgery_class, validate_icu_limits, validate_recovery_period,
      validate_package_benefits, validate_referral, validate_maternity,
      validate_dental_class, validate_optical_cycle, validate_mental_health,
      validate_aso_funds, validate_buffer_funds] at hg
     exact Option.noConfusion hg)

/-- Evaluating any applicable rule code against the default registry stamps
the code on the result and only yields statuses from possStatuses. -/
theorem evalDefault_sound (code : String) (ctx : ClaimContext)
    (b : BenefitConfiguration) (r : ValidationResult)
    (h : evalDefault code ctx b = some r) :
    r.rule_code = code ∧ r.status ∈ possStatuses code := by
  unfold evalDefault at h
  cases hfind : defaultRegistry.find? (fun en => en.1 == code) with
  | none =>
    rw [registryLookup, hfind] at h
    exact Option.noConfusion h
  | some en =>
    obtain ⟨c0, n0, f0⟩ := en
    have he : (c0, n0, f0) ∈ defaultRegistry := List.mem_of_find?_eq_some hfind
    have hcode : c0 = code := by
      have hp := List.find?_some hfind
      simpa using hp
    subst hcode
    rw [registryLookup, hfind] at h
    exact entry_sound c0 n0 f0 he ctx b r h

/-- Transfer of the boolean pair check to the semantic pair property used by
the ordering proof. -/
theorem pairOK_sound {c c' : String} (hok : pairOK c c' = true)
    (ctx : ClaimContext) (b : BenefitConfiguration) :
    ∀ r ∈ evalDefault c ctx b, ∀ r' ∈ evalDefault c' ctx b,
      r.status = r'.status → r.rule_code < r'.rule_code := by
  intro r hr r' hr' hst
  rw [Option.mem_def] at hr hr'
  obtain ⟨hcode, hs⟩ := evalDefault_sound c ctx b r hr
  obtain ⟨hcode', hs'⟩ := evalDefault_sound c' ctx b r' hr'
  rw [pairOK, Bool.or_eq_true] at hok
  rcases hok with hdis | hlt
  · exfalso
    rw [List.all_eq_true] at hdis
    exact (of_decide_eq_true (hdis r.status hs)) (hst ▸ hs')
  · rw [hcode, hcode']
    exact String.lt_iff_toList_lt.mpr (of_decide_eq_true hlt)

/-- For every benefit category, any two rule codes listed in applicable-rule
order pass the pair check: rules that can share a status tier are listed in
ascending code order. -/
theorem applicable_pairOK (cat : BenefitCategory) :
    (applicableRules cat).Pairwise (fun c c' => pairOK c c' = true) := by
  cases cat <;> decide

/-- The unsorted collection of validate_claim results over the default
registry is pairwise ordered by rule code within equal statuses. -/
theorem collect_pairwise (ctx : ClaimContext) (b : BenefitConfiguration) :
    (collectResults defaultRegistry ctx b).Pairwise
      (fun x y => x.status = y.status → x.rule_code < y.rule_code) := by
  have heq : collectResults defaultRegistry ctx b =
      (applicableRules b.category).filterMap (fun code => evalDefault code ctx b) := rfl
  rw [heq, List.pairwise_filterMap]
  refine (applicable_pairOK b.category).imp ?_
  intro c c' hok r hr r' hr' hst
  exact pairOK_sound hok ctx b r hr r' hr' hst

/-- The status rank encoding is injective. -/
theorem statusRank_inj {s t : ValidationStatus} (h : statusRank s = statusRank t) :
    s = t := by
  cases s <;> cases t <;> simp_all [statusRank]

/-- Inserting an element that is code-below every equal-status element of an
ordered list keeps the list ordered. -/
theorem insertRes_pairwise (x : ValidationResult) :
    ∀ (l : List ValidationResult), l.Pairwise ResOrdered →
      (∀ y ∈ l, x.status = y.status → x.rule_code < y.rule_code) →
      (insertRes x l).Pairwise ResOrdered := by
  intro l
  induction l with
  | nil =>
    intro _ _
    simp [insertRes]
  | cons y ys ih =>
    intro hl hx
    rw [insertRes]
    split
    · rename_i hle
      refine List.Pairwise.cons ?_ hl
      intro z hz
      rcases List.mem_cons.mp hz with rfl | hzys
      · rcases lt_or_eq_of_le hle with hlt | heq
        · exact Or.inl hlt
        · have hxy : x.status = z.status := (statusRank_inj heq).symm
          exact Or.inr ⟨hxy, hx z (List.mem_cons_self z ys) hxy⟩
      · have hyz : ResOrdered y z := (List.pairwise_cons.mp hl).1 z hzys
        rcases hyz with hrank | ⟨hstat, hcode⟩
        · exact Or.inl (lt_of_lt_of_le hrank hle)
        · rcases lt_or_eq_of_le hle with hlt | heq
          · refine Or.inl ?_
            rw [← hstat]
            exact hlt
          · have hxy : x.status = y.status := (statusRank_inj heq).symm
            exact Or.inr ⟨hxy.trans hstat,
              hx z (List.mem_cons_of_mem y hzys) (hxy.trans hstat)⟩
    · rename_i hgt
      have hlt : statusRank x.status < statusRank y.status := not_le.mp hgt
      have htl := List.pairwise_cons.mp hl
      refine List.Pairwise.cons ?_ (ih htl.2 (fun z hz => hx z (List.mem_cons_of_mem y hz)))
      intro z hz
      have hz' : z ∈ x :: ys := (insertRes_perm x ys).mem_iff.mp hz
      rcases List.mem_cons.mp hz' with rfl | hzys
      · exact Or.inl hlt
      · exact htl.1 z hzys

/-- The stable severity sort produces a list ordered by descending status
rank with ascending rule codes inside each status tier, provided equal
statuses appear in ascending code order in its input. -/
theorem sortResults_pairwise :
    ∀ (l : List ValidationResult),
      l.Pairwise (fun x y => x.status = y.status → x.rule_code < y.rule_code) →
      (sortResults l).Pairwise ResOrdered := by
  intro l
  induction l with
  | nil =>
    intro _
    simp [sortResults]
  | cons x xs ih =>
    intro hl
    rw [sortResults]
    have hp := List.pairwise_cons.mp hl
    refine insertRes_pairwise x (sortResults xs) (ih hp.2) ?_
    intro y hy
    exact hp.1 y ((sortResults_perm xs).mem_iff.mp hy)

/-- C3: the list returned by validate_claim is ordered with FAILED results
before WARNING before PENDING before PASSED (statusRank 3, 2, 1, 0), and
within each status tier results appear in ascending rule_code order. -/
theorem C3_result_ordering (ctx : ClaimContext) (b : BenefitConfiguration) :
    (validate_claim ctx b).Pairwise ResOrdered :=
  sortResults_pairwise _ (collect_pairwise ctx b)

end ValidationClaims

end ClaimsAskes
